import Mathlib

/-!
Verification development for the pptx_tools style helpers
(fill_style.py and font_style.py).

The two modules are shallowly embedded: Python objects become Lean
structures, property setters and the write methods become functions
returning `Except String` (an `Except.error` models a raised Python
exception), and the writes performed on an external target (a
FillFormat or Font object of the underlying library) are recorded as
an explicit event list so that "performs zero writes" is a provable
statement.  Python values that can flow through the dynamically typed
attributes are embedded as small inductive value domains so that
identity (constructor equality) and Python `==` can be told apart.
-/

set_option autoImplicit false

namespace PptxTools

/-- RGBColor from pptx.dml.color: three channel values 0..255. -/
structure RGBColor where
  r : Nat
  g : Nat
  b : Nat
deriving DecidableEq, Repr

/-- RGBColor(*value) applied to a Python tuple of naturals: requires exactly
three integer values 0-255, otherwise the constructor raises ValueError
(wrong types / range) or TypeError (wrong arity). -/
def RGBColor.ofTuple : List Nat → Except String RGBColor
  | [r, g, b] =>
      if r ≤ 255 ∧ g ≤ 255 ∧ b ≤ 255 then Except.ok ⟨r, g, b⟩
      else Except.error "ValueError: RGBColor() takes three integer values 0-255"
  | _ => Except.error "TypeError: RGBColor() takes three integer values 0-255"

/-- The dynamically typed Python values that can be assigned to / stored in
the color attributes of the two style classes: None, an RGBColor, a tuple
of ints, an MSO_THEME_COLOR EnumValue (by its int code), or any other
Python object. -/
inductive PyVal where
  | none
  | rgbColor (c : RGBColor)
  | tuple (t : List Nat)
  | themeVal (code : Nat)
  | other
deriving DecidableEq, Repr

/-- isinstance(value, RGBColor) -/
def isRGBColor : PyVal → Bool
  | .rgbColor _ => true
  | _ => false

/-- isinstance(value, tuple) -/
def isTuple : PyVal → Bool
  | .tuple _ => true
  | _ => false

/-- value is None -/
def isNone : PyVal → Bool
  | .none => true
  | _ => false

/-- isinstance(value, EnumValue) -/
def isEnumValue : PyVal → Bool
  | .themeVal _ => true
  | _ => false

/-- FillType enum from fill_style.py. -/
inductive FillType where
  | NOFILL
  | SOLID
  | PATTERNED
  | GRADIENT
deriving DecidableEq, Repr

/-- PPTXFillStyle state: the fill-type selector, the two color slots (each
with an rgb and a theme representation stored as raw Python values),
optional brightness adjustments and an optional pattern selector. -/
structure PPTXFillStyle where
  fill_type : Option FillType
  fore_color_rgb : PyVal
  fore_color_mso_theme : PyVal
  fore_color_brightness : Option ℚ
  back_color_rgb : PyVal
  back_color_mso_theme : PyVal
  back_color_brightness : Option ℚ
  pattern : Option Nat
deriving DecidableEq, Repr

/-- PPTXFillStyle.__init__: fill_type = SOLID, every color representation
None, brightness None, pattern None. -/
def PPTXFillStyle.init : PPTXFillStyle :=
  { fill_type := some FillType.SOLID
    fore_color_rgb := PyVal.none
    fore_color_mso_theme := PyVal.none
    fore_color_brightness := none
    back_color_rgb := PyVal.none
    back_color_mso_theme := PyVal.none
    back_color_brightness := none
    pattern := none }

/-- fore_color_rgb property setter: for a non-None value asserts it is an
RGBColor or a tuple and clears the fore theme representation; a tuple is
converted through RGBColor(*value) before storage, anything else is stored
verbatim. -/
def PPTXFillStyle.set_fore_color_rgb (s : PPTXFillStyle) (value : PyVal) :
    Except String PPTXFillStyle := do
  let s ←
    if isNone value then pure s
    else if isRGBColor value || isTuple value then
      pure { s with fore_color_mso_theme := PyVal.none }
    else Except.error "AssertionError"
  match value with
  | .tuple t => do
      let c ← RGBColor.ofTuple t
      pure { s with fore_color_rgb := PyVal.rgbColor c }
  | v => pure { s with fore_color_rgb := v }

/-- fore_color_mso_theme property setter: for a non-None value asserts it is
an EnumValue and clears the fore rgb representation; the value is stored
verbatim. -/
def PPTXFillStyle.set_fore_color_mso_theme (s : PPTXFillStyle) (value : PyVal) :
    Except String PPTXFillStyle := do
  let s ←
    if isNone value then pure s
    else if isEnumValue value then
      pure { s with fore_color_rgb := PyVal.none }
    else Except.error "AssertionError"
  pure { s with fore_color_mso_theme := value }

/-- back_color_rgb property setter, exactly as written in the source: for a
non-None value it asserts RGBColor-or-tuple and then clears
_fore_color_mso_theme (the FORE slot's theme representation, not the back
slot's) before storing into the back rgb representation. -/
def PPTXFillStyle.set_back_color_rgb (s : PPTXFillStyle) (value : PyVal) :
    Except String PPTXFillStyle := do
  let s ←
    if isNone value then pure s
    else if isRGBColor value || isTuple value then
      pure { s with fore_color_mso_theme := PyVal.none }
    else Except.error "AssertionError"
  match value with
  | .tuple t => do
      let c ← RGBColor.ofTuple t
      pure { s with back_color_rgb := PyVal.rgbColor c }
  | v => pure { s with back_color_rgb := v }

/-- back_color_mso_theme property setter: for a non-None value asserts it is
an EnumValue and clears the back rgb representation; the value is stored
verbatim. -/
def PPTXFillStyle.set_back_color_mso_theme (s : PPTXFillStyle) (value : PyVal) :
    Except String PPTXFillStyle := do
  let s ←
    if isNone value then pure s
    else if isEnumValue value then
      pure { s with back_color_rgb := PyVal.none }
    else Except.error "AssertionError"
  pure { s with back_color_mso_theme := value }

/-- One write performed on an external FillFormat target: selecting the fill
mode, setting the pattern, or setting a color / brightness field of the
fore or back ColorFormat. -/
inductive WriteEvent where
  | background
  | solid
  | patterned
  | pattern (p : Nat)
  | foreRgb (v : PyVal)
  | foreTheme (v : PyVal)
  | foreBrightness (b : ℚ)
  | backRgb (v : PyVal)
  | backTheme (v : PyVal)
  | backBrightness (b : ℚ)
deriving DecidableEq, Repr

/-- Python truthiness of the brightness attribute: None and 0 are falsy. -/
def truthy : Option ℚ → Bool
  | none => false
  | some q => decide (q ≠ 0)

/-- The trailing brightness write of _write_fore_color: performed exactly
when the brightness attribute is truthy. -/
def PPTXFillStyle.foreBrightnessEvs (s : PPTXFillStyle) : List WriteEvent :=
  match s.fore_color_brightness with
  | some b => if truthy (some b) then [WriteEvent.foreBrightness b] else []
  | none => []

/-- The trailing brightness write of _write_back_color: performed exactly
when the brightness attribute is truthy. -/
def PPTXFillStyle.backBrightnessEvs (s : PPTXFillStyle) : List WriteEvent :=
  match s.back_color_brightness with
  | some b => if truthy (some b) then [WriteEvent.backBrightness b] else []
  | none => []

/-- _write_fore_color: writes the rgb representation if set, else the theme
representation if set, else raises ValueError; afterwards writes brightness
if truthy.  Returns the list of writes performed. -/
def PPTXFillStyle.write_fore_color (s : PPTXFillStyle) :
    Except String (List WriteEvent) := do
  let first ←
    if !(isNone s.fore_color_rgb) then
      pure [WriteEvent.foreRgb s.fore_color_rgb]
    else if !(isNone s.fore_color_mso_theme) then
      pure [WriteEvent.foreTheme s.fore_color_mso_theme]
    else Except.error "ValueError: No valid rgb_color set"
  pure (first ++ s.foreBrightnessEvs)

/-- _write_back_color: same as _write_fore_color but for the back slot. -/
def PPTXFillStyle.write_back_color (s : PPTXFillStyle) :
    Except String (List WriteEvent) := do
  let first ←
    if !(isNone s.back_color_rgb) then
      pure [WriteEvent.backRgb s.back_color_rgb]
    else if !(isNone s.back_color_mso_theme) then
      pure [WriteEvent.backTheme s.back_color_mso_theme]
    else Except.error "ValueError: No valid rgb_color set"
  pure (first ++ s.backBrightnessEvs)

/-- _write_fill_type: dispatch on fill_type.  NOFILL calls fill.background();
SOLID writes mode and fore color only when a fore representation is set and
otherwise prints a warning; PATTERNED writes mode, then the pattern if set,
then the fore color if a fore representation is set, then the back color if
a back representation is set; GRADIENT prints a warning.  Returns the
writes performed and the warnings printed. -/
def PPTXFillStyle.write_fill_type (s : PPTXFillStyle) :
    Except String (List WriteEvent × List String) :=
  match s.fill_type with
  | some FillType.NOFILL => Except.ok ([WriteEvent.background], [])
  | some FillType.SOLID =>
      if !(isNone s.fore_color_rgb) || !(isNone s.fore_color_mso_theme) then do
        let evs ← s.write_fore_color
        pure (WriteEvent.solid :: evs, [])
      else
        Except.ok ([], ["Warning: Cannot set FillType.SOLID without a valid fore_color_*."])
  | some FillType.PATTERNED => do
      let pevs :=
        match s.pattern with
        | some p => [WriteEvent.pattern p]
        | none => []
      let fevs ←
        if !(isNone s.fore_color_rgb) || !(isNone s.fore_color_mso_theme) then
          s.write_fore_color
        else pure []
      let bevs ←
        if !(isNone s.back_color_rgb) || !(isNone s.back_color_mso_theme) then
          s.write_back_color
        else pure []
      pure (WriteEvent.patterned :: (pevs ++ fevs ++ bevs), [])
  | some FillType.GRADIENT => Except.ok ([], ["FillType.GRADIENT not implemented jet."])
  | none => Except.ok ([], [])

/-- write_fill: if fill_type is not None, delegate to _write_fill_type;
otherwise nothing happens. -/
def PPTXFillStyle.write_fill (s : PPTXFillStyle) :
    Except String (List WriteEvent × List String) :=
  match s.fill_type with
  | none => Except.ok ([], [])
  | some _ => s.write_fill_type

/-- The mutable state of an external FillFormat target, as far as the writes
recorded in WriteEvent touch it. -/
structure FillFormat where
  mode : Option FillType
  pattern : Option Nat
  fore_rgb : PyVal
  fore_theme : PyVal
  fore_brightness : Option ℚ
  back_rgb : PyVal
  back_theme : PyVal
  back_brightness : Option ℚ
deriving DecidableEq, Repr

/-- Effect of one recorded write on a FillFormat target. -/
def applyWriteEvent (f : FillFormat) : WriteEvent → FillFormat
  | .background => { f with mode := some FillType.NOFILL }
  | .solid => { f with mode := some FillType.SOLID }
  | .patterned => { f with mode := some FillType.PATTERNED }
  | .pattern p => { f with pattern := some p }
  | .foreRgb v => { f with fore_rgb := v }
  | .foreTheme v => { f with fore_theme := v }
  | .foreBrightness b => { f with fore_brightness := some b }
  | .backRgb v => { f with back_rgb := v }
  | .backTheme v => { f with back_theme := v }
  | .backBrightness b => { f with back_brightness := some b }

/-- Effect of a sequence of recorded writes on a FillFormat target. -/
def applyWriteEvents (f : FillFormat) (evs : List WriteEvent) : FillFormat :=
  evs.foldl applyWriteEvent f

/-- write_fill run against a concrete FillFormat target: the recorded writes
are applied to the target in order. -/
def PPTXFillStyle.write_fill_to (s : PPTXFillStyle) (fill : FillFormat) :
    Except String (FillFormat × List String) := do
  let r ← s.write_fill
  pure (applyWriteEvents fill r.1, r.2)

/-! ## font_style.py -/

/-- MSO_LANGUAGE_ID.NONE (int code of the pptx enum member). -/
def MSO_LANGUAGE_ID_NONE : Nat := 0

/-- MSO_LANGUAGE_ID.ENGLISH_UK (int code of the pptx enum member). -/
def MSO_LANGUAGE_ID_ENGLISH_UK : Nat := 2057

/-- MSO_LANGUAGE_ID.GERMAN (int code of the pptx enum member). -/
def MSO_LANGUAGE_ID_GERMAN : Nat := 1031

/-- The dynamically typed Python values that can flow through the font
attributes (bold, italic, underline, name, size, language_id) of
PPTXFontStyle and of an external Font object: None, a bool, a string, an
MSO_LANGUAGE_ID member, an MSO_TEXT_UNDERLINE_TYPE member, a number,
the reset-to-default sentinel, or an object whose custom Python equality
answers True against the sentinel (equality and identity differ there). -/
inductive FVal where
  | none
  | bool (b : Bool)
  | str (s : String)
  | lang (code : Nat)
  | uType (code : Nat)
  | num (q : ℚ)
  | useDefault
  | eqAll
deriving DecidableEq, Repr

/-- Modelled from the spec: the reset-to-default sentinel _USE_DEFAULT is
defined in pptx_tools/utils.py, which is not part of the sources at hand;
per the spec it is a single process-wide singleton value.  Python
`value == _USE_DEFAULT` is True when value IS the sentinel (default object
equality is identity) or when value's own custom equality answers True
against it (modelled by the eqAll constructor). -/
def eqUseDefault : FVal → Bool
  | .useDefault => true
  | .eqAll => true
  | _ => false

/-- Python `value is None` on a font-attribute value. -/
def FVal.isNoneV : FVal → Bool
  | .none => true
  | _ => false

/-- Pt(points): building a Length from self.size.  A number is used as is
(bools and the int-subclassing pptx enum values coerce to their numeric
value, as in Python); a string or other non-numeric object raises. -/
def asNumberPt : FVal → Except String ℚ
  | .num q => Except.ok q
  | .bool b => Except.ok (if b then 1 else 0)
  | .lang code => Except.ok code
  | .uType code => Except.ok code
  | _ => Except.error "TypeError: unsupported operand for Pt()"

/-- The mutable state of an external pptx.text.text.Font object: the
attributes written by write_font.  size is a Length in points (None when
inherited); font.color.rgb is flattened into color_rgb; font.fill is a
FillFormat. -/
structure Font where
  name : FVal
  bold : FVal
  italic : FVal
  underline : FVal
  language_id : FVal
  size : Option ℚ
  color_rgb : PyVal
  fill : FillFormat
deriving DecidableEq, Repr

/-- font.size.pt: raises AttributeError when font.size is None (None has no
attribute pt), otherwise yields the point value. -/
def sizePt : Option ℚ → Except String ℚ
  | none => Except.error "AttributeError: NoneType object has no attribute pt"
  | some q => Except.ok q

/-- PPTXFontStyle state.  name and language_id are class attributes looked
up through the instance, so the constructor below takes the current class
attribute values; all per-instance attributes start unset (None). -/
structure PPTXFontStyle where
  bold : FVal
  italic : FVal
  underline : FVal
  language_id : FVal
  name : FVal
  size : FVal
  color_rgb : PyVal
  fill_style : Option PPTXFillStyle
deriving DecidableEq, Repr

/-- PPTXFontStyle(): all instance attributes None; name and language_id
resolve to the class attributes (MSO_LANGUAGE_ID.ENGLISH_UK and "Roboto"
unless a caller reassigned them, which the parameters model). -/
def PPTXFontStyle.init (clsLanguageId clsName : FVal) : PPTXFontStyle :=
  { bold := FVal.none
    italic := FVal.none
    underline := FVal.none
    language_id := clsLanguageId
    name := clsName
    size := FVal.none
    color_rgb := PyVal.none
    fill_style := none }

/-- The class attribute PPTXFontStyle.language_id as written in the source. -/
def defaultClsLanguageId : FVal := FVal.lang MSO_LANGUAGE_ID_ENGLISH_UK

/-- The class attribute PPTXFontStyle.name as written in the source. -/
def defaultClsName : FVal := FVal.str "Roboto"

/-- color_rgb property setter of PPTXFontStyle: asserts the value is an
RGBColor, a tuple or None; a tuple is converted through RGBColor(*value)
before storage, anything else is stored verbatim. -/
def PPTXFontStyle.set_color_rgb (st : PPTXFontStyle) (value : PyVal) :
    Except String PPTXFontStyle :=
  if isRGBColor value || isTuple value || isNone value then
    match value with
    | .tuple t => do
        let c ← RGBColor.ofTuple t
        pure { st with color_rgb := PyVal.rgbColor c }
    | v => Except.ok { st with color_rgb := v }
  else Except.error "AssertionError"

/-- _get_write_value(new_value, old_value, check_default): if new_value is
None return old_value; else if check_default and new_value == _USE_DEFAULT
return None; else return new_value. -/
def get_write_value (new_value old_value : FVal) (check_default : Bool) : FVal :=
  if new_value.isNoneV then old_value
  else if check_default && eqUseDefault new_value then FVal.none
  else new_value

/-- read_font: copies bold, italic, name, size and underline from an
external Font onto the style; size is read as font.size.pt, which raises
when font.size is None. -/
def PPTXFontStyle.read_font (st : PPTXFontStyle) (font : Font) :
    Except String PPTXFontStyle := do
  let ptv ← sizePt font.size
  pure { st with
    bold := font.bold
    italic := font.italic
    name := font.name
    size := FVal.num ptv
    underline := font.underline }

/-- write_font: writes name, bold, italic and underline through
_get_write_value; language_id is forced to MSO_LANGUAGE_ID.NONE when the
style's language_id == _USE_DEFAULT and otherwise merged; size is skipped
when None, cleared when == _USE_DEFAULT and otherwise written as
Pt(self.size); color.rgb is written when color_rgb is set; the owned fill
style, when present, is applied to font.fill. -/
def PPTXFontStyle.write_font (st : PPTXFontStyle) (font : Font) :
    Except String Font := do
  let font := { font with name := get_write_value st.name font.name true }
  let font := { font with bold := get_write_value st.bold font.bold true }
  let font := { font with italic := get_write_value st.italic font.italic true }
  let font := { font with underline := get_write_value st.underline font.underline true }
  let font :=
    if eqUseDefault st.language_id then
      { font with language_id := FVal.lang MSO_LANGUAGE_ID_NONE }
    else
      { font with language_id := get_write_value st.language_id font.language_id true }
  let font ←
    if st.size.isNoneV then pure font
    else if eqUseDefault st.size then pure { font with size := none }
    else do
      let q ← asNumberPt st.size
      pure { font with size := some q }
  let font :=
    if isNone st.color_rgb then font
    else { font with color_rgb := st.color_rgb }
  match st.fill_style with
  | none => pure font
  | some fs => do
      let r ← fs.write_fill
      pure { font with fill := applyWriteEvents font.fill r.1 }

/-- copy_font classmethod: builds a transient style from the current class
attributes, reads the source font into it and writes it onto the
destination font. -/
def copy_font (clsLanguageId clsName : FVal) (src dst : Font) :
    Except String Font := do
  let font_style := PPTXFontStyle.init clsLanguageId clsName
  let font_style ← font_style.read_font src
  font_style.write_font dst

/-- An external run: exposes a font. -/
structure Run where
  font : Font
deriving DecidableEq, Repr

/-- An external paragraph: exposes a font and a list of runs. -/
structure Paragraph where
  font : Font
  runs : List Run
deriving DecidableEq, Repr

/-- An external text frame: an ordered sequence of paragraphs. -/
structure TextFrame where
  paragraphs : List Paragraph
deriving DecidableEq, Repr

/-- An external shape: may or may not expose a text frame. -/
structure Shape where
  has_text_frame : Bool
  text_frame : TextFrame
deriving DecidableEq, Repr

/-- write_paragraph: writes the style to the paragraph's font. -/
def PPTXFontStyle.write_paragraph (st : PPTXFontStyle) (p : Paragraph) :
    Except String Paragraph := do
  let f ← st.write_font p.font
  pure { p with font := f }

/-- write_run: writes the style to the run's font. -/
def PPTXFontStyle.write_run (st : PPTXFontStyle) (r : Run) :
    Except String Run := do
  let f ← st.write_font r.font
  pure { r with font := f }

/-- The for-loop body of write_text_frame over the paragraph list. -/
def PPTXFontStyle.writeParagraphs (st : PPTXFontStyle) :
    List Paragraph → Except String (List Paragraph)
  | [] => Except.ok []
  | p :: ps => do
      let p1 ← st.write_paragraph p
      let ps1 ← st.writeParagraphs ps
      pure (p1 :: ps1)

/-- write_text_frame: applies the style to every paragraph of the frame. -/
def PPTXFontStyle.write_text_frame (st : PPTXFontStyle) (tf : TextFrame) :
    Except String TextFrame := do
  let ps ← st.writeParagraphs tf.paragraphs
  pure { paragraphs := ps }

/-- write_shape: raises TypeError when the shape has no text frame, else
delegates to write_text_frame. -/
def PPTXFontStyle.write_shape (st : PPTXFontStyle) (sh : Shape) :
    Except String Shape :=
  if !sh.has_text_frame then
    Except.error "TypeError: Cannot write font for given shape (has no text_frame)"
  else do
    let tf ← st.write_text_frame sh.text_frame
    pure { sh with text_frame := tf }

/-- An argument of PPTXFontStyle.set for the font attributes: either the
_DO_NOT_CHANGE default (a singleton class tested with Python is) or an
actual value to assign. -/
inductive SetArg where
  | dnc
  | val (v : FVal)
deriving DecidableEq, Repr

/-- An argument of PPTXFontStyle.set for color_rgb: either the
_DO_NOT_CHANGE default or a value that will go through the color_rgb
property setter. -/
inductive SetColorArg where
  | dnc
  | val (v : PyVal)
deriving DecidableEq, Repr

/-- set(...): bulk mutator; each attribute is assigned exactly when the
argument is not (by identity) the _DO_NOT_CHANGE sentinel; color_rgb goes
through its property setter and can raise. -/
def PPTXFontStyle.set (st : PPTXFontStyle)
    (bold italic language_id name size underline : SetArg)
    (color_rgb : SetColorArg) : Except String PPTXFontStyle := do
  let st := match bold with | .dnc => st | .val v => { st with bold := v }
  let st := match italic with | .dnc => st | .val v => { st with italic := v }
  let st := match language_id with | .dnc => st | .val v => { st with language_id := v }
  let st := match name with | .dnc => st | .val v => { st with name := v }
  let st := match size with | .dnc => st | .val v => { st with size := v }
  let st := match underline with | .dnc => st | .val v => { st with underline := v }
  match color_rgb with
  | .dnc => pure st
  | .val v => st.set_color_rgb v

/-! ## Helper lemmas about the fill-side operations -/

/-- Whether a recorded write touches the fore-color part of the target. -/
def WriteEvent.isFore : WriteEvent → Bool
  | .foreRgb _ => true
  | .foreTheme _ => true
  | .foreBrightness _ => true
  | _ => false

theorem write_fore_color_rgb_eq (s : PPTXFillStyle)
    (h1 : isNone s.fore_color_rgb = false) :
    s.write_fore_color =
      Except.ok (WriteEvent.foreRgb s.fore_color_rgb :: s.foreBrightnessEvs) := by
  simp [PPTXFillStyle.write_fore_color, h1, Bind.bind, Except.bind, Pure.pure, Except.pure]

theorem write_fore_color_theme_eq (s : PPTXFillStyle)
    (h1 : isNone s.fore_color_rgb = true) (h2 : isNone s.fore_color_mso_theme = false) :
    s.write_fore_color =
      Except.ok (WriteEvent.foreTheme s.fore_color_mso_theme :: s.foreBrightnessEvs) := by
  simp [PPTXFillStyle.write_fore_color, h1, h2, Bind.bind, Except.bind, Pure.pure, Except.pure]

theorem write_fore_color_error_eq (s : PPTXFillStyle)
    (h1 : isNone s.fore_color_rgb = true) (h2 : isNone s.fore_color_mso_theme = true) :
    s.write_fore_color = Except.error "ValueError: No valid rgb_color set" := by
  simp [PPTXFillStyle.write_fore_color, h1, h2, Bind.bind, Except.bind, Pure.pure, Except.pure]

theorem write_back_color_rgb_eq (s : PPTXFillStyle)
    (h1 : isNone s.back_color_rgb = false) :
    s.write_back_color =
      Except.ok (WriteEvent.backRgb s.back_color_rgb :: s.backBrightnessEvs) := by
  simp [PPTXFillStyle.write_back_color, h1, Bind.bind, Except.bind, Pure.pure, Except.pure]

theorem write_back_color_theme_eq (s : PPTXFillStyle)
    (h1 : isNone s.back_color_rgb = true) (h2 : isNone s.back_color_mso_theme = false) :
    s.write_back_color =
      Except.ok (WriteEvent.backTheme s.back_color_mso_theme :: s.backBrightnessEvs) := by
  simp [PPTXFillStyle.write_back_color, h1, h2, Bind.bind, Except.bind, Pure.pure, Except.pure]

theorem write_back_color_error_eq (s : PPTXFillStyle)
    (h1 : isNone s.back_color_rgb = true) (h2 : isNone s.back_color_mso_theme = true) :
    s.write_back_color = Except.error "ValueError: No valid rgb_color set" := by
  simp [PPTXFillStyle.write_back_color, h1, h2, Bind.bind, Except.bind, Pure.pure, Except.pure]

/-- The events _write_fore_color produces when at least one fore
representation is set. -/
def PPTXFillStyle.foreColorEvents (s : PPTXFillStyle) : List WriteEvent :=
  if !(isNone s.fore_color_rgb) then
    WriteEvent.foreRgb s.fore_color_rgb :: s.foreBrightnessEvs
  else
    WriteEvent.foreTheme s.fore_color_mso_theme :: s.foreBrightnessEvs

/-- The events _write_back_color produces when at least one back
representation is set. -/
def PPTXFillStyle.backColorEvents (s : PPTXFillStyle) : List WriteEvent :=
  if !(isNone s.back_color_rgb) then
    WriteEvent.backRgb s.back_color_rgb :: s.backBrightnessEvs
  else
    WriteEvent.backTheme s.back_color_mso_theme :: s.backBrightnessEvs

theorem write_fore_color_eq_of_set (s : PPTXFillStyle)
    (h : (!(isNone s.fore_color_rgb) || !(isNone s.fore_color_mso_theme)) = true) :
    s.write_fore_color = Except.ok s.foreColorEvents := by
  cases h1 : isNone s.fore_color_rgb with
  | false =>
    rw [write_fore_color_rgb_eq s h1]
    simp [PPTXFillStyle.foreColorEvents, h1]
  | true =>
    have h2 : isNone s.fore_color_mso_theme = false := by
      cases h2 : isNone s.fore_color_mso_theme with
      | false => rfl
      | true => rw [h1, h2] at h; simp at h
    rw [write_fore_color_theme_eq s h1 h2]
    simp [PPTXFillStyle.foreColorEvents, h1]

theorem write_back_color_eq_of_set (s : PPTXFillStyle)
    (h : (!(isNone s.back_color_rgb) || !(isNone s.back_color_mso_theme)) = true) :
    s.write_back_color = Except.ok s.backColorEvents := by
  cases h1 : isNone s.back_color_rgb with
  | false =>
    rw [write_back_color_rgb_eq s h1]
    simp [PPTXFillStyle.backColorEvents, h1]
  | true =>
    have h2 : isNone s.back_color_mso_theme = false := by
      cases h2 : isNone s.back_color_mso_theme with
      | false => rfl
      | true => rw [h1, h2] at h; simp at h
    rw [write_back_color_theme_eq s h1 h2]
    simp [PPTXFillStyle.backColorEvents, h1]

/-- The total result of write_fill, computed by cases: write_fill never
raises (every call of the raising color helpers is guarded by the very
condition under which they raise). -/
def writeFillTotal (s : PPTXFillStyle) : List WriteEvent × List String :=
  match s.fill_type with
  | none => ([], [])
  | some FillType.NOFILL => ([WriteEvent.background], [])
  | some FillType.SOLID =>
      if !(isNone s.fore_color_rgb) || !(isNone s.fore_color_mso_theme) then
        (WriteEvent.solid :: s.foreColorEvents, [])
      else
        ([], ["Warning: Cannot set FillType.SOLID without a valid fore_color_*."])
  | some FillType.PATTERNED =>
      (WriteEvent.patterned ::
        ((match s.pattern with | some p => [WriteEvent.pattern p] | none => []) ++
         (if !(isNone s.fore_color_rgb) || !(isNone s.fore_color_mso_theme) then
            s.foreColorEvents else []) ++
         (if !(isNone s.back_color_rgb) || !(isNone s.back_color_mso_theme) then
            s.backColorEvents else [])), [])
  | some FillType.GRADIENT => ([], ["FillType.GRADIENT not implemented jet."])

theorem write_fill_eq_total (s : PPTXFillStyle) :
    s.write_fill = Except.ok (writeFillTotal s) := by
  rcases hft : s.fill_type with _ | ft
  · simp [PPTXFillStyle.write_fill, writeFillTotal, hft]
  cases ft
  case NOFILL =>
    simp [PPTXFillStyle.write_fill, PPTXFillStyle.write_fill_type, writeFillTotal, hft]
  case GRADIENT =>
    simp [PPTXFillStyle.write_fill, PPTXFillStyle.write_fill_type, writeFillTotal, hft]
  case SOLID =>
    by_cases hg : (!(isNone s.fore_color_rgb) || !(isNone s.fore_color_mso_theme)) = true
    · simp [PPTXFillStyle.write_fill, PPTXFillStyle.write_fill_type, writeFillTotal, hft, hg,
        write_fore_color_eq_of_set s hg, Bind.bind, Except.bind, Pure.pure, Except.pure]
    · simp [PPTXFillStyle.write_fill, PPTXFillStyle.write_fill_type, writeFillTotal, hft, hg]
  case PATTERNED =>
    by_cases hf : (!(isNone s.fore_color_rgb) || !(isNone s.fore_color_mso_theme)) = true
    · by_cases hb : (!(isNone s.back_color_rgb) || !(isNone s.back_color_mso_theme)) = true
      · simp [PPTXFillStyle.write_fill, PPTXFillStyle.write_fill_type, writeFillTotal, hft, hf, hb,
          write_fore_color_eq_of_set s hf, write_back_color_eq_of_set s hb,
          Bind.bind, Except.bind, Pure.pure, Except.pure]
      · simp [PPTXFillStyle.write_fill, PPTXFillStyle.write_fill_type, writeFillTotal, hft, hf, hb,
          write_fore_color_eq_of_set s hf, Bind.bind, Except.bind, Pure.pure, Except.pure]
    · by_cases hb : (!(isNone s.back_color_rgb) || !(isNone s.back_color_mso_theme)) = true
      · simp [PPTXFillStyle.write_fill, PPTXFillStyle.write_fill_type, writeFillTotal, hft, hf, hb,
          write_back_color_eq_of_set s hb, Bind.bind, Except.bind, Pure.pure, Except.pure]
      · simp [PPTXFillStyle.write_fill, PPTXFillStyle.write_fill_type, writeFillTotal, hft, hf, hb,
          Bind.bind, Except.bind, Pure.pure, Except.pure]

theorem write_fill_ok (s : PPTXFillStyle) : ∃ r, s.write_fill = Except.ok r :=
  ⟨writeFillTotal s, write_fill_eq_total s⟩

theorem backBrightnessEvs_no_fore (s : PPTXFillStyle) :
    (s.backBrightnessEvs.all fun e => !e.isFore) = true := by
  unfold PPTXFillStyle.backBrightnessEvs
  rcases hb : s.back_color_brightness with _ | b
  · simp
  · by_cases ht : truthy (some b) = true
    · simp [ht, WriteEvent.isFore]
    · simp [ht]

theorem backColorEvents_no_fore (s : PPTXFillStyle) :
    (s.backColorEvents.all fun e => !e.isFore) = true := by
  have hb := backBrightnessEvs_no_fore s
  unfold PPTXFillStyle.backColorEvents
  split
  · simpa [WriteEvent.isFore] using hb
  · simpa [WriteEvent.isFore] using hb

/-! ## Helper lemmas about the font-side operations -/

/-- Values self.size can hold for which the size branch of write_font does
not raise: everything except a string (Pt of a string raises; bools and the
int-subclassing enum values coerce numerically). -/
def sizeWritable : FVal → Bool
  | .str _ => false
  | _ => true

/-- The size the target font holds after write_font, by cases on the three
states of self.size. -/
def writeSizeModel (v : FVal) (old : Option ℚ) : Option ℚ :=
  if v.isNoneV then old
  else if eqUseDefault v then none
  else match v with
    | .num q => some q
    | .bool b => some (if b then (1 : ℚ) else 0)
    | .lang c => some (c : ℚ)
    | .uType c => some (c : ℚ)
    | _ => none

theorem asNumberPt_eq (v : FVal) (old : Option ℚ) (hv : sizeWritable v = true)
    (hn : v.isNoneV = false) (hd : eqUseDefault v = false) :
    ∃ q, asNumberPt v = Except.ok q ∧ writeSizeModel v old = some q := by
  cases v <;>
    simp_all [asNumberPt, sizeWritable, FVal.isNoneV, eqUseDefault, writeSizeModel]

/-- The value write_font leaves on the target Font, as a total function
(write_font only raises when Pt is applied to a non-numeric size value,
which sizeWritable rules out). -/
def writeFontTotal (st : PPTXFontStyle) (f : Font) : Font :=
  { name := get_write_value st.name f.name true
    bold := get_write_value st.bold f.bold true
    italic := get_write_value st.italic f.italic true
    underline := get_write_value st.underline f.underline true
    language_id :=
      if eqUseDefault st.language_id then FVal.lang MSO_LANGUAGE_ID_NONE
      else get_write_value st.language_id f.language_id true
    size := writeSizeModel st.size f.size
    color_rgb := if isNone st.color_rgb then f.color_rgb else st.color_rgb
    fill :=
      match st.fill_style with
      | none => f.fill
      | some fs => applyWriteEvents f.fill (writeFillTotal fs).1 }

theorem write_font_eq_total (st : PPTXFontStyle) (f : Font)
    (hsz : sizeWritable st.size = true) :
    st.write_font f = Except.ok (writeFontTotal st f) := by
  have hsplit : st.size.isNoneV = true ∨
      (st.size.isNoneV = false ∧ eqUseDefault st.size = true) ∨
      (st.size.isNoneV = false ∧ eqUseDefault st.size = false) := by
    cases hx : st.size.isNoneV
    · cases hy : eqUseDefault st.size
      · exact Or.inr (Or.inr ⟨rfl, rfl⟩)
      · exact Or.inr (Or.inl ⟨rfl, rfl⟩)
    · exact Or.inl rfl
  rcases hsplit with hn | ⟨hn, hd⟩ | ⟨hn, hd⟩
  · rcases hfs : st.fill_style with _ | fs <;>
      by_cases hl : eqUseDefault st.language_id = true <;>
      by_cases hc : isNone st.color_rgb = true <;>
      simp [PPTXFontStyle.write_font, writeFontTotal, writeSizeModel, hfs, hn, hl, hc,
        write_fill_eq_total, Bind.bind, Except.bind, Pure.pure, Except.pure]
  · rcases hfs : st.fill_style with _ | fs <;>
      by_cases hl : eqUseDefault st.language_id = true <;>
      by_cases hc : isNone st.color_rgb = true <;>
      simp [PPTXFontStyle.write_font, writeFontTotal, writeSizeModel, hfs, hn, hd, hl, hc,
        write_fill_eq_total, Bind.bind, Except.bind, Pure.pure, Except.pure]
  · obtain ⟨q, hq, hqm⟩ := asNumberPt_eq st.size f.size hsz hn hd
    rcases hfs : st.fill_style with _ | fs <;>
      by_cases hl : eqUseDefault st.language_id = true <;>
      by_cases hc : isNone st.color_rgb = true <;>
      simp [PPTXFontStyle.write_font, writeFontTotal, hfs, hn, hd, hq, hqm, hl, hc,
        write_fill_eq_total, Bind.bind, Except.bind, Pure.pure, Except.pure]

theorem get_write_value_ite (v old : FVal) (h : eqUseDefault v = false) :
    get_write_value v old true = (if v.isNoneV then old else v) := by
  by_cases hn : v.isNoneV = true
  · simp [get_write_value, hn]
  · have hnf : v.isNoneV = false := by
      cases hx : v.isNoneV
      · rfl
      · exact absurd hx hn
    simp [get_write_value, hnf, h]

theorem get_write_value_self (v : FVal) (h : eqUseDefault v = false) :
    get_write_value v v true = v := by
  rw [get_write_value_ite v v h]
  by_cases hn : v.isNoneV = true <;> simp [hn]

/-- Well-typed values of the tri-state font attributes bold and italic:
None or an actual bool (what a real pptx Font can report). -/
def FVal.isTriState : FVal → Bool
  | .none => true
  | .bool _ => true
  | _ => false

/-- Well-typed values of the name attribute: None or a string. -/
def FVal.isNameLike : FVal → Bool
  | .none => true
  | .str _ => true
  | _ => false

/-- Well-typed values of the underline attribute: None, a bool or an
MSO_TEXT_UNDERLINE_TYPE member. -/
def FVal.isUnderlineLike : FVal → Bool
  | .none => true
  | .bool _ => true
  | .uType _ => true
  | _ => false

/-- A well-typed external Font: its tri-state attributes really hold values
of the documented types (as any Font of the underlying library does). -/
def Font.wf (f : Font) : Bool :=
  f.bold.isTriState && f.italic.isTriState && f.name.isNameLike &&
    f.underline.isUnderlineLike

theorem eqUseDefault_false_of_triState (v : FVal) (h : v.isTriState = true) :
    eqUseDefault v = false := by
  cases v <;> simp_all [FVal.isTriState, eqUseDefault]

theorem eqUseDefault_false_of_nameLike (v : FVal) (h : v.isNameLike = true) :
    eqUseDefault v = false := by
  cases v <;> simp_all [FVal.isNameLike, eqUseDefault]

theorem eqUseDefault_false_of_underlineLike (v : FVal) (h : v.isUnderlineLike = true) :
    eqUseDefault v = false := by
  cases v <;> simp_all [FVal.isUnderlineLike, eqUseDefault]

/-- A value is sentinel-honest when it compares equal to the
reset-to-default sentinel only if it literally is the sentinel.  Every
value of the documented attribute types is sentinel-honest; an object with
a pathological custom equality is not. -/
def sentinelHonest (v : FVal) : Prop :=
  eqUseDefault v = true → v = FVal.useDefault

/-- The three-way merge policy exactly as the spec states it: an unset
(None) new value keeps the old value, the reset-to-default sentinel writes
the neutral representation (None), any other value is written verbatim. -/
def mergePolicySpec (new_value old_value out : FVal) : Prop :=
  (new_value = FVal.none → out = old_value) ∧
  (new_value = FVal.useDefault → out = FVal.none) ∧
  (new_value ≠ FVal.none → new_value ≠ FVal.useDefault → out = new_value)

theorem mergePolicySpec_gwv (v old : FVal) (hv : sentinelHonest v) :
    mergePolicySpec v old (get_write_value v old true) := by
  refine ⟨?_, ?_, ?_⟩
  · intro h
    subst h
    rfl
  · intro h
    subst h
    rfl
  · intro h1 h2
    have hn : v.isNoneV = false := by
      cases v <;> simp_all [FVal.isNoneV]
    have hd : eqUseDefault v = false := by
      cases heq : eqUseDefault v
      · rfl
      · exact absurd (hv heq) h2
    simp [get_write_value, hn, hd]

/-- The style state read_font produces from a font whose point size is q:
bold, italic, name, size and underline come from the font, everything else
is kept. -/
def readResult (st : PPTXFontStyle) (f : Font) (q : ℚ) : PPTXFontStyle :=
  { bold := f.bold
    italic := f.italic
    underline := f.underline
    language_id := st.language_id
    name := f.name
    size := FVal.num q
    color_rgb := st.color_rgb
    fill_style := st.fill_style }

theorem read_font_eq (st : PPTXFontStyle) (f : Font) (q : ℚ) (hq : f.size = some q) :
    st.read_font f = Except.ok (readResult st f q) := by
  simp [PPTXFontStyle.read_font, sizePt, hq, readResult,
    Bind.bind, Except.bind, Pure.pure, Except.pure]

theorem copy_font_eq (clsL clsN : FVal) (src dst : Font) (q : ℚ) (hq : src.size = some q) :
    copy_font clsL clsN src dst =
      Except.ok (writeFontTotal (readResult (PPTXFontStyle.init clsL clsN) src q) dst) := by
  have h1 := read_font_eq (PPTXFontStyle.init clsL clsN) src q hq
  have h2 := write_font_eq_total (readResult (PPTXFontStyle.init clsL clsN) src q) dst (by rfl)
  simp [copy_font, h1, h2, Bind.bind, Except.bind]

theorem writeParagraphs_eq (st : PPTXFontStyle) (hsz : sizeWritable st.size = true) :
    ∀ ps : List Paragraph, st.writeParagraphs ps =
      Except.ok (ps.map fun p => { p with font := writeFontTotal st p.font }) := by
  intro ps
  induction ps with
  | nil => rfl
  | cons p ps ih =>
    simp [PPTXFontStyle.writeParagraphs, PPTXFontStyle.write_paragraph,
      write_font_eq_total st p.font hsz, ih, Bind.bind, Except.bind, Pure.pure, Except.pure]

/-! ## Sample concrete data used by witnesses and counterexamples -/

/-- An untouched FillFormat target. -/
def fill0 : FillFormat :=
  { mode := none, pattern := none, fore_rgb := PyVal.none, fore_theme := PyVal.none,
    fore_brightness := none, back_rgb := PyVal.none, back_theme := PyVal.none,
    back_brightness := none }

/-- A well-typed sample font with every attribute explicitly set. -/
def fontA : Font :=
  { name := FVal.str "Arial", bold := FVal.bool true, italic := FVal.none,
    underline := FVal.bool false, language_id := FVal.lang MSO_LANGUAGE_ID_GERMAN,
    size := some 18, color_rgb := PyVal.rgbColor ⟨10, 20, 30⟩, fill := fill0 }

/-- A font whose size is inherited (font.size is None). -/
def fontNoSize : Font :=
  { name := FVal.none, bold := FVal.none, italic := FVal.none, underline := FVal.none,
    language_id := FVal.lang MSO_LANGUAGE_ID_GERMAN, size := none,
    color_rgb := PyVal.none, fill := fill0 }

/-- A source font whose bold is unset (inherits) but whose size is set. -/
def fontSrcBoldNone : Font :=
  { name := FVal.str "Georgia", bold := FVal.none, italic := FVal.bool true,
    underline := FVal.none, language_id := FVal.lang MSO_LANGUAGE_ID_GERMAN,
    size := some 12, color_rgb := PyVal.none, fill := fill0 }

/-- A shape with a text frame holding one paragraph with one run. -/
def shapeA : Shape :=
  { has_text_frame := true,
    text_frame := ⟨[{ font := fontA, runs := [⟨fontSrcBoldNone⟩] }]⟩ }

/-- A shape without a text frame. -/
def shapeNoTF : Shape :=
  { has_text_frame := false, text_frame := ⟨[]⟩ }

/-- The state reached from a fresh PPTXFillStyle by assigning
back_color_mso_theme = theme 5 and then back_color_rgb = RGBColor(1,2,3):
note that BOTH back representations are populated. -/
def fillBackBoth : PPTXFillStyle :=
  { fill_type := some FillType.SOLID
    fore_color_rgb := PyVal.none
    fore_color_mso_theme := PyVal.none
    fore_color_brightness := none
    back_color_rgb := PyVal.rgbColor ⟨1, 2, 3⟩
    back_color_mso_theme := PyVal.themeVal 5
    back_color_brightness := none
    pattern := none }

/-- A fresh PPTXFillStyle switched to PATTERNED, everything else unset. -/
def fillPatterned : PPTXFillStyle :=
  { fill_type := some FillType.PATTERNED
    fore_color_rgb := PyVal.none
    fore_color_mso_theme := PyVal.none
    fore_color_brightness := none
    back_color_rgb := PyVal.none
    back_color_mso_theme := PyVal.none
    back_color_brightness := none
    pattern := none }

/-- A PATTERNED PPTXFillStyle with only a back rgb color set. -/
def fillPatternedBack : PPTXFillStyle :=
  { fill_type := some FillType.PATTERNED
    fore_color_rgb := PyVal.none
    fore_color_mso_theme := PyVal.none
    fore_color_brightness := none
    back_color_rgb := PyVal.rgbColor ⟨7, 8, 9⟩
    back_color_mso_theme := PyVal.none
    back_color_brightness := none
    pattern := none }

/-- A fresh PPTXFillStyle after fore_color_rgb = (1, 2, 3). -/
def fillForeSet : PPTXFillStyle :=
  { fill_type := some FillType.SOLID
    fore_color_rgb := PyVal.rgbColor ⟨1, 2, 3⟩
    fore_color_mso_theme := PyVal.none
    fore_color_brightness := none
    back_color_rgb := PyVal.none
    back_color_mso_theme := PyVal.none
    back_color_brightness := none
    pattern := none }

/-! ## The claims -/

/-- Claim C1: the spec demands that for each color slot of PPTXFillStyle at
most one of the rgb and theme representations is non-null after any setter
sequence, each setter clearing the other representation of its own slot.
The code violates this for the back slot: set_back_color_rgb clears
_fore_color_mso_theme instead of _back_color_mso_theme (contradicting its
own "only one color definition at a time!" comment), so after setting
back_color_mso_theme and then back_color_rgb both back representations are
populated. -/
theorem C1_back_slot_both_populated :
    (PPTXFillStyle.init.set_back_color_mso_theme (PyVal.themeVal 5)).bind
      (fun s1 => s1.set_back_color_rgb (PyVal.rgbColor ⟨1, 2, 3⟩)) = Except.ok fillBackBoth ∧
    fillBackBoth.back_color_rgb = PyVal.rgbColor ⟨1, 2, 3⟩ ∧
    fillBackBoth.back_color_mso_theme = PyVal.themeVal 5 ∧
    ¬(isNone fillBackBoth.back_color_rgb = true ∨
      isNone fillBackBoth.back_color_mso_theme = true) := by
  exact ⟨rfl, rfl, rfl, by decide⟩

/-- Claim C3 counterexample: with fill_type=PATTERNED and a color slot fully
unset (here: everything unset), write_fill does not raise the claimed
no-valid-color validation error; it succeeds, writing only the patterned
mode selector. -/
theorem C3_counterexample :
    fillPatterned.write_fill = Except.ok ([WriteEvent.patterned], []) := by
  rfl

/-- Claim C3 (amended): the no-valid-color ValueError lives in the helper
_write_fore_color, which does raise it when both fore representations are
unset; but the PATTERNED branch of _write_fill_type only invokes that helper
when at least one representation is set, so write_fill itself never raises
it: a fully unset color is skipped with no fore-side write at all, exactly
as if that color were not requested. -/
theorem C3_patterned_skips_unset_color (s : PPTXFillStyle)
    (hft : s.fill_type = some FillType.PATTERNED)
    (h1 : isNone s.fore_color_rgb = true) (h2 : isNone s.fore_color_mso_theme = true) :
    s.write_fore_color = Except.error "ValueError: No valid rgb_color set" ∧
    ∃ evs, s.write_fill = Except.ok (evs, []) ∧ (evs.all fun e => !e.isFore) = true := by
  have htot : writeFillTotal s =
      (WriteEvent.patterned ::
        ((match s.pattern with | some p => [WriteEvent.pattern p] | none => []) ++
         [] ++
         (if !(isNone s.back_color_rgb) || !(isNone s.back_color_mso_theme) then
            s.backColorEvents else [])), []) := by
    simp [writeFillTotal, hft, h1, h2]
  refine ⟨write_fore_color_error_eq s h1 h2,
    WriteEvent.patterned ::
      ((match s.pattern with | some p => [WriteEvent.pattern p] | none => []) ++
       [] ++
       (if !(isNone s.back_color_rgb) || !(isNone s.back_color_mso_theme) then
          s.backColorEvents else [])), ?_, ?_⟩
  · rw [write_fill_eq_total s, htot]
  · have hback := backColorEvents_no_fore s
    rcases hp : s.pattern with _ | p <;>
      by_cases hbg : (!(isNone s.back_color_rgb) || !(isNone s.back_color_mso_theme)) = true <;>
      simp_all [WriteEvent.isFore]

/-- Witness for C3 (amended) at a concrete patterned style with a back color
set and the fore color fully unset. -/
theorem C3_witness :
    fillPatternedBack.write_fore_color =
      Except.error "ValueError: No valid rgb_color set" ∧
    ∃ evs, fillPatternedBack.write_fill = Except.ok (evs, []) ∧
      (evs.all fun e => !e.isFore) = true :=
  C3_patterned_skips_unset_color fillPatternedBack (by decide) (by decide) (by decide)

/-- Claim C6: a SOLID fill style whose fore color is fully unset performs
zero writes on the target, raises nothing, and only emits the warning. -/
theorem C6_solid_without_color (s : PPTXFillStyle)
    (hft : s.fill_type = some FillType.SOLID)
    (h1 : isNone s.fore_color_rgb = true) (h2 : isNone s.fore_color_mso_theme = true) :
    s.write_fill =
      Except.ok ([], ["Warning: Cannot set FillType.SOLID without a valid fore_color_*."]) ∧
    ∀ fill : FillFormat, s.write_fill_to fill =
      Except.ok (fill, ["Warning: Cannot set FillType.SOLID without a valid fore_color_*."]) := by
  have hw : s.write_fill =
      Except.ok ([], ["Warning: Cannot set FillType.SOLID without a valid fore_color_*."]) := by
    rw [write_fill_eq_total s]
    simp [writeFillTotal, hft, h1, h2]
  refine ⟨hw, fun fill => ?_⟩
  simp [PPTXFillStyle.write_fill_to, hw, applyWriteEvents,
    Bind.bind, Except.bind, Pure.pure, Except.pure]

/-- Witness for C6: the freshly constructed PPTXFillStyle (SOLID, no colors)
applied to the untouched target. -/
theorem C6_witness :
    PPTXFillStyle.init.write_fill =
      Except.ok ([], ["Warning: Cannot set FillType.SOLID without a valid fore_color_*."]) ∧
    PPTXFillStyle.init.write_fill_to fill0 =
      Except.ok (fill0, ["Warning: Cannot set FillType.SOLID without a valid fore_color_*."]) := by
  have h := C6_solid_without_color PPTXFillStyle.init (by decide) (by decide) (by decide)
  exact ⟨h.1, h.2 fill0⟩

theorem set_fore_color_rgb_stores (s : PPTXFillStyle) (value : PyVal) (s1 : PPTXFillStyle)
    (h : s.set_fore_color_rgb value = Except.ok s1) :
    s1.fore_color_rgb = PyVal.none ∨ ∃ c, s1.fore_color_rgb = PyVal.rgbColor c := by
  cases value with
  | none =>
    simp [PPTXFillStyle.set_fore_color_rgb, isNone, Bind.bind, Except.bind,
      Pure.pure, Except.pure] at h
    subst h
    exact Or.inl rfl
  | rgbColor c =>
    simp [PPTXFillStyle.set_fore_color_rgb, isNone, isRGBColor, Bind.bind, Except.bind,
      Pure.pure, Except.pure] at h
    subst h
    exact Or.inr ⟨c, rfl⟩
  | tuple t =>
    cases hc : RGBColor.ofTuple t with
    | error e =>
      simp [PPTXFillStyle.set_fore_color_rgb, isNone, isRGBColor, isTuple, hc,
        Bind.bind, Except.bind, Pure.pure, Except.pure] at h
    | ok c =>
      simp [PPTXFillStyle.set_fore_color_rgb, isNone, isRGBColor, isTuple, hc,
        Bind.bind, Except.bind, Pure.pure, Except.pure] at h
      subst h
      exact Or.inr ⟨c, rfl⟩
  | themeVal code =>
    simp [PPTXFillStyle.set_fore_color_rgb, isNone, isRGBColor, isTuple,
      Bind.bind, Except.bind, Pure.pure, Except.pure] at h
  | other =>
    simp [PPTXFillStyle.set_fore_color_rgb, isNone, isRGBColor, isTuple,
      Bind.bind, Except.bind, Pure.pure, Except.pure] at h

theorem set_back_color_rgb_stores (s : PPTXFillStyle) (value : PyVal) (s1 : PPTXFillStyle)
    (h : s.set_back_color_rgb value = Except.ok s1) :
    s1.back_color_rgb = PyVal.none ∨ ∃ c, s1.back_color_rgb = PyVal.rgbColor c := by
  cases value with
  | none =>
    simp [PPTXFillStyle.set_back_color_rgb, isNone, Bind.bind, Except.bind,
      Pure.pure, Except.pure] at h
    subst h
    exact Or.inl rfl
  | rgbColor c =>
    simp [PPTXFillStyle.set_back_color_rgb, isNone, isRGBColor, Bind.bind, Except.bind,
      Pure.pure, Except.pure] at h
    subst h
    exact Or.inr ⟨c, rfl⟩
  | tuple t =>
    cases hc : RGBColor.ofTuple t with
    | error e =>
      simp [PPTXFillStyle.set_back_color_rgb, isNone, isRGBColor, isTuple, hc,
        Bind.bind, Except.bind, Pure.pure, Except.pure] at h
    | ok c =>
      simp [PPTXFillStyle.set_back_color_rgb, isNone, isRGBColor, isTuple, hc,
        Bind.bind, Except.bind, Pure.pure, Except.pure] at h
      subst h
      exact Or.inr ⟨c, rfl⟩
  | themeVal code =>
    simp [PPTXFillStyle.set_back_color_rgb, isNone, isRGBColor, isTuple,
      Bind.bind, Except.bind, Pure.pure, Except.pure] at h
  | other =>
    simp [PPTXFillStyle.set_back_color_rgb, isNone, isRGBColor, isTuple,
      Bind.bind, Except.bind, Pure.pure, Except.pure] at h

theorem set_color_rgb_stores (st : PPTXFontStyle) (value : PyVal) (st1 : PPTXFontStyle)
    (h : st.set_color_rgb value = Except.ok st1) :
    st1.color_rgb = PyVal.none ∨ ∃ c, st1.color_rgb = PyVal.rgbColor c := by
  cases value with
  | none =>
    simp [PPTXFontStyle.set_color_rgb, isNone, isRGBColor, isTuple, Bind.bind, Except.bind,
      Pure.pure, Except.pure] at h
    subst h
    exact Or.inl rfl
  | rgbColor c =>
    simp [PPTXFontStyle.set_color_rgb, isNone, isRGBColor, isTuple, Bind.bind, Except.bind,
      Pure.pure, Except.pure] at h
    subst h
    exact Or.inr ⟨c, rfl⟩
  | tuple t =>
    cases hc : RGBColor.ofTuple t with
    | error e =>
      simp [PPTXFontStyle.set_color_rgb, isNone, isRGBColor, isTuple, hc,
        Bind.bind, Except.bind, Pure.pure, Except.pure] at h
    | ok c =>
      simp [PPTXFontStyle.set_color_rgb, isNone, isRGBColor, isTuple, hc,
        Bind.bind, Except.bind, Pure.pure, Except.pure] at h
      subst h
      exact Or.inr ⟨c, rfl⟩
  | themeVal code =>
    simp [PPTXFontStyle.set_color_rgb, isNone, isRGBColor, isTuple,
      Bind.bind, Except.bind, Pure.pure, Except.pure] at h
  | other =>
    simp [PPTXFontStyle.set_color_rgb, isNone, isRGBColor, isTuple,
      Bind.bind, Except.bind, Pure.pure, Except.pure] at h

/-- Claim C10: after every successful assignment to an rgb color property
(fore_color_rgb and back_color_rgb on PPTXFillStyle, color_rgb on
PPTXFontStyle) the stored value is None or an RGBColor: tuples are
converted through RGBColor(*value) before storage and every other
non-None, non-RGBColor, non-tuple value is rejected by the assert, so a
reader never observes a raw tuple. -/
theorem C10_rgb_setters_store_only_rgb (s : PPTXFillStyle) (st : PPTXFontStyle)
    (value : PyVal) :
    (∀ s1, s.set_fore_color_rgb value = Except.ok s1 →
      s1.fore_color_rgb = PyVal.none ∨ ∃ c, s1.fore_color_rgb = PyVal.rgbColor c) ∧
    (∀ s1, s.set_back_color_rgb value = Except.ok s1 →
      s1.back_color_rgb = PyVal.none ∨ ∃ c, s1.back_color_rgb = PyVal.rgbColor c) ∧
    (∀ st1, st.set_color_rgb value = Except.ok st1 →
      st1.color_rgb = PyVal.none ∨ ∃ c, st1.color_rgb = PyVal.rgbColor c) ∧
    (∀ t s1, value = PyVal.tuple t → s.set_fore_color_rgb value = Except.ok s1 →
      ∃ c, RGBColor.ofTuple t = Except.ok c ∧ s1.fore_color_rgb = PyVal.rgbColor c) ∧
    (isNone value = false → isRGBColor value = false → isTuple value = false →
      s.set_fore_color_rgb value = Except.error "AssertionError" ∧
      s.set_back_color_rgb value = Except.error "AssertionError" ∧
      st.set_color_rgb value = Except.error "AssertionError") := by
  refine ⟨fun s1 h => set_fore_color_rgb_stores s value s1 h,
    fun s1 h => set_back_color_rgb_stores s value s1 h,
    fun st1 h => set_color_rgb_stores st value st1 h, ?_, ?_⟩
  · intro t s1 hv h
    subst hv
    cases hc : RGBColor.ofTuple t with
    | error e =>
      simp [PPTXFillStyle.set_fore_color_rgb, isNone, isRGBColor, isTuple, hc,
        Bind.bind, Except.bind, Pure.pure, Except.pure] at h
    | ok c =>
      refine ⟨c, rfl, ?_⟩
      simp [PPTXFillStyle.set_fore_color_rgb, isNone, isRGBColor, isTuple, hc,
        Bind.bind, Except.bind, Pure.pure, Except.pure] at h
      subst h
      rfl
  · intro h1 h2 h3
    cases value <;> simp_all [isNone, isRGBColor, isTuple,
      PPTXFillStyle.set_fore_color_rgb, PPTXFillStyle.set_back_color_rgb,
      PPTXFontStyle.set_color_rgb, Bind.bind, Except.bind, Pure.pure, Except.pure]

/-- Witness for C10 at a concrete tuple assignment on fresh style objects. -/
theorem C10_witness :
    ∃ c, RGBColor.ofTuple [1, 2, 3] = Except.ok c ∧
      fillForeSet.fore_color_rgb = PyVal.rgbColor c := by
  have h := C10_rgb_setters_store_only_rgb PPTXFillStyle.init
    (PPTXFontStyle.init defaultClsLanguageId defaultClsName) (PyVal.tuple [1, 2, 3])
  exact h.2.2.2.1 [1, 2, 3] fillForeSet rfl (by rfl)

/-- A style exercising all three merge states at once: explicit value
(bold), unset (italic), reset-to-default sentinel (underline). -/
def styleMix : PPTXFontStyle :=
  { bold := FVal.bool false
    italic := FVal.none
    underline := FVal.useDefault
    language_id := defaultClsLanguageId
    name := FVal.str "Consolas"
    size := FVal.none
    color_rgb := PyVal.none
    fill_style := none }

/-- Claim C2: for bold, italic, underline and name, write_font follows the
three-way merge policy exactly: an unset attribute keeps the target's old
value, the reset-to-default sentinel writes None, any other value is
written verbatim — for every old value on the target. -/
theorem C2_write_font_merge_policy (st : PPTXFontStyle) (f : Font)
    (hsz : sizeWritable st.size = true)
    (hb : sentinelHonest st.bold) (hi : sentinelHonest st.italic)
    (hu : sentinelHonest st.underline) (hn : sentinelHonest st.name) :
    ∃ r, st.write_font f = Except.ok r ∧
      mergePolicySpec st.bold f.bold r.bold ∧
      mergePolicySpec st.italic f.italic r.italic ∧
      mergePolicySpec st.underline f.underline r.underline ∧
      mergePolicySpec st.name f.name r.name :=
  ⟨writeFontTotal st f, write_font_eq_total st f hsz,
    mergePolicySpec_gwv st.bold f.bold hb, mergePolicySpec_gwv st.italic f.italic hi,
    mergePolicySpec_gwv st.underline f.underline hu, mergePolicySpec_gwv st.name f.name hn⟩

/-- Witness for C2 at a concrete style covering all three states and a
concrete target font. -/
theorem C2_witness :
    ∃ r, styleMix.write_font fontA = Except.ok r ∧
      mergePolicySpec styleMix.bold fontA.bold r.bold ∧
      mergePolicySpec styleMix.italic fontA.italic r.italic ∧
      mergePolicySpec styleMix.underline fontA.underline r.underline ∧
      mergePolicySpec styleMix.name fontA.name r.name :=
  C2_write_font_merge_policy styleMix fontA (by decide)
    (by intro h; exact absurd h (by decide))
    (by intro h; exact absurd h (by decide))
    (by intro h; rfl)
    (by intro h; exact absurd h (by decide))

/-- Claim C4 counterexample: copy_font does not reproduce bold exactly when
the source's bold is unset (None): the merge policy keeps the destination's
old value instead, so the destination ends with bold=True although the
source has bold=None. -/
theorem C4_counterexample :
    ∃ r, copy_font defaultClsLanguageId defaultClsName fontSrcBoldNone fontA = Except.ok r ∧
      fontSrcBoldNone.bold = FVal.none ∧ r.bold = FVal.bool true := by
  refine ⟨_, copy_font_eq defaultClsLanguageId defaultClsName fontSrcBoldNone fontA 12
    (by rfl), rfl, by decide⟩

/-- Claim C4 (amended): for source fonts whose size is set, copy_font copies
bold, italic, name and underline verbatim when they are set on the source
and keeps the destination's old value when the source's value is None;
size is copied exactly; the destination's color and fill are untouched.
(When the source's size is None, copy_font raises before writing anything.) -/
theorem C4_copy_font_effect (src dst : Font) (hwf : src.wf = true)
    (q : ℚ) (hq : src.size = some q) :
    ∃ r, copy_font defaultClsLanguageId defaultClsName src dst = Except.ok r ∧
      r.bold = (if src.bold.isNoneV then dst.bold else src.bold) ∧
      r.italic = (if src.italic.isNoneV then dst.italic else src.italic) ∧
      r.name = (if src.name.isNoneV then dst.name else src.name) ∧
      r.underline = (if src.underline.isNoneV then dst.underline else src.underline) ∧
      r.size = some q ∧
      r.color_rgb = dst.color_rgb ∧
      r.fill = dst.fill := by
  simp only [Font.wf, Bool.and_eq_true] at hwf
  obtain ⟨⟨⟨hb, hi⟩, hn⟩, hu⟩ := hwf
  refine ⟨writeFontTotal (readResult (PPTXFontStyle.init defaultClsLanguageId defaultClsName)
      src q) dst,
    copy_font_eq defaultClsLanguageId defaultClsName src dst q hq, ?_, ?_, ?_, ?_, ?_, ?_, ?_⟩
  · exact get_write_value_ite src.bold dst.bold (eqUseDefault_false_of_triState src.bold hb)
  · exact get_write_value_ite src.italic dst.italic
      (eqUseDefault_false_of_triState src.italic hi)
  · exact get_write_value_ite src.name dst.name (eqUseDefault_false_of_nameLike src.name hn)
  · exact get_write_value_ite src.underline dst.underline
      (eqUseDefault_false_of_underlineLike src.underline hu)
  · rfl
  · rfl
  · rfl

/-- Witness for C4 (amended) at concrete fonts: the copy succeeds and leaves
the destination's color and fill untouched. -/
theorem C4_witness :
    ∃ r, copy_font defaultClsLanguageId defaultClsName fontA fontSrcBoldNone = Except.ok r ∧
      r.color_rgb = fontSrcBoldNone.color_rgb ∧ r.fill = fontSrcBoldNone.fill := by
  obtain ⟨r, h1, h2, h3, h4, h5, h6, h7, h8⟩ :=
    C4_copy_font_effect fontA fontSrcBoldNone (by decide) 18 (by decide)
  exact ⟨r, h1, h7, h8⟩

/-- Claim C5 counterexample: for a font whose size is inherited (font.size
is None) the round trip cannot even start: read_font evaluates
font.size.pt and raises AttributeError, so the read-then-write sequence is
not a no-op but an exception. -/
theorem C5_counterexample :
    (PPTXFontStyle.init defaultClsLanguageId defaultClsName).read_font fontNoSize =
      Except.error "AttributeError: NoneType object has no attribute pt" := by
  rfl

/-- Claim C5 (amended): for every well-typed font whose size is set,
read_font followed immediately by write_font on the same font leaves bold,
italic, name, size and underline unchanged. -/
theorem C5_read_then_write_no_op (f : Font) (hwf : f.wf = true)
    (q : ℚ) (hq : f.size = some q) :
    ∃ st1 f1,
      (PPTXFontStyle.init defaultClsLanguageId defaultClsName).read_font f = Except.ok st1 ∧
      st1.write_font f = Except.ok f1 ∧
      f1.bold = f.bold ∧ f1.italic = f.italic ∧ f1.name = f.name ∧
      f1.size = f.size ∧ f1.underline = f.underline := by
  simp only [Font.wf, Bool.and_eq_true] at hwf
  obtain ⟨⟨⟨hb, hi⟩, hn⟩, hu⟩ := hwf
  refine ⟨readResult (PPTXFontStyle.init defaultClsLanguageId defaultClsName) f q,
    writeFontTotal (readResult (PPTXFontStyle.init defaultClsLanguageId defaultClsName) f q) f,
    read_font_eq (PPTXFontStyle.init defaultClsLanguageId defaultClsName) f q hq,
    write_font_eq_total (readResult (PPTXFontStyle.init defaultClsLanguageId defaultClsName)
      f q) f (by rfl), ?_, ?_, ?_, ?_, ?_⟩
  · exact get_write_value_self f.bold (eqUseDefault_false_of_triState f.bold hb)
  · exact get_write_value_self f.italic (eqUseDefault_false_of_triState f.italic hi)
  · exact get_write_value_self f.name (eqUseDefault_false_of_nameLike f.name hn)
  · rw [hq]
    rfl
  · exact get_write_value_self f.underline (eqUseDefault_false_of_underlineLike f.underline hu)

/-- Witness for C5 (amended) at a concrete font. -/
theorem C5_witness :
    ∃ st1 f1,
      (PPTXFontStyle.init defaultClsLanguageId defaultClsName).read_font fontA =
        Except.ok st1 ∧
      st1.write_font fontA = Except.ok f1 ∧
      f1.bold = fontA.bold ∧ f1.italic = fontA.italic ∧ f1.name = fontA.name ∧
      f1.size = fontA.size ∧ f1.underline = fontA.underline :=
  C5_read_then_write_no_op fontA (by decide) 18 (by decide)

/-- Claim C7 counterexample: the merge policy tests the reset-to-default
sentinel with Python equality, not identity: a value that is not the
sentinel but whose custom equality answers True against it is treated as
the sentinel (the write value becomes None instead of the value itself). -/
theorem C7_counterexample :
    get_write_value FVal.eqAll (FVal.bool true) true = FVal.none ∧
    FVal.eqAll ≠ FVal.useDefault := by
  decide

/-- Claim C7 (amended): the merge policy (and the language_id/size handling,
which use the same comparison) matches the reset-to-default sentinel by
equality, so any value comparing equal to it is treated as the sentinel;
only the bulk set method's separate _DO_NOT_CHANGE sentinel is compared by
identity, so such a value is assigned verbatim there. -/
theorem C7_sentinel_matched_by_equality (v old : FVal) (st : PPTXFontStyle)
    (hne : v ≠ FVal.useDefault) (heq : eqUseDefault v = true) :
    get_write_value v old true = FVal.none ∧
    ∃ st1, st.set (SetArg.val v) SetArg.dnc SetArg.dnc SetArg.dnc SetArg.dnc SetArg.dnc
        SetColorArg.dnc = Except.ok st1 ∧ st1.bold = v := by
  have hv : v = FVal.eqAll := by
    cases v <;> simp_all [eqUseDefault]
  subst hv
  refine ⟨rfl, { st with bold := FVal.eqAll }, ?_, rfl⟩
  simp [PPTXFontStyle.set, Pure.pure, Except.pure]

/-- Witness for C7 (amended) at the pathological equal-to-everything value. -/
theorem C7_witness :
    get_write_value FVal.eqAll (FVal.bool false) true = FVal.none ∧
    ∃ st1, (PPTXFontStyle.init defaultClsLanguageId defaultClsName).set
        (SetArg.val FVal.eqAll) SetArg.dnc SetArg.dnc SetArg.dnc SetArg.dnc SetArg.dnc
        SetColorArg.dnc = Except.ok st1 ∧ st1.bold = FVal.eqAll :=
  C7_sentinel_matched_by_equality FVal.eqAll (FVal.bool false)
    (PPTXFontStyle.init defaultClsLanguageId defaultClsName) (by decide) (by decide)

/-- Claim C8: write_shape raises TypeError exactly when the shape has no
text frame; otherwise it writes the style to the font of every paragraph
of the text frame, leaving each paragraph's runs (and their fonts)
untouched. -/
theorem C8_write_shape_typeerror_iff (st : PPTXFontStyle) (sh : Shape)
    (hsz : sizeWritable st.size = true) :
    (sh.has_text_frame = false →
      st.write_shape sh =
        Except.error "TypeError: Cannot write font for given shape (has no text_frame)") ∧
    (sh.has_text_frame = true →
      ∃ sh1, st.write_shape sh = Except.ok sh1 ∧
        List.Forall₂ (fun p p1 => st.write_font p.font = Except.ok p1.font ∧ p1.runs = p.runs)
          sh.text_frame.paragraphs sh1.text_frame.paragraphs) := by
  constructor
  · intro h
    simp [PPTXFontStyle.write_shape, h]
  · intro h
    refine ⟨{ sh with text_frame :=
        ⟨sh.text_frame.paragraphs.map fun p => { p with font := writeFontTotal st p.font }⟩ },
      ?_, ?_⟩
    · simp [PPTXFontStyle.write_shape, h, PPTXFontStyle.write_text_frame,
        writeParagraphs_eq st hsz, Bind.bind, Except.bind, Pure.pure, Except.pure]
    · refine List.forall₂_map_right_iff.mpr (List.forall₂_same.mpr ?_)
      intro p hp
      exact ⟨write_font_eq_total st p.font hsz, rfl⟩

/-- Witness for C8 at a shape without a text frame and a shape with one
paragraph. -/
theorem C8_witness :
    (PPTXFontStyle.init defaultClsLanguageId defaultClsName).write_shape shapeNoTF =
      Except.error "TypeError: Cannot write font for given shape (has no text_frame)" ∧
    ∃ sh1, (PPTXFontStyle.init defaultClsLanguageId defaultClsName).write_shape shapeA =
        Except.ok sh1 ∧
      List.Forall₂ (fun p p1 =>
          (PPTXFontStyle.init defaultClsLanguageId defaultClsName).write_font p.font =
            Except.ok p1.font ∧ p1.runs = p.runs)
        shapeA.text_frame.paragraphs sh1.text_frame.paragraphs := by
  refine ⟨(C8_write_shape_typeerror_iff (PPTXFontStyle.init defaultClsLanguageId
      defaultClsName) shapeNoTF (by decide)).1 rfl,
    (C8_write_shape_typeerror_iff (PPTXFontStyle.init defaultClsLanguageId
      defaultClsName) shapeA (by decide)).2 rfl⟩

/-- Claim C9 counterexample: copy_font does not write the class-level
language default when the source's size is None: read_font raises first,
so nothing at all is written to the destination. -/
theorem C9_counterexample :
    copy_font defaultClsLanguageId defaultClsName fontNoSize fontA =
      Except.error "AttributeError: NoneType object has no attribute pt" := by
  rfl

/-- Claim C9 (amended): for every pair of fonts whose source size is set,
copy_font writes the class-level language_id default
(MSO_LANGUAGE_ID.ENGLISH_UK) onto the destination, regardless of the
source's or the destination's previous language: the transient style never
reads language from the source. -/
theorem C9_copy_font_writes_class_language (src dst : Font) (q : ℚ)
    (hq : src.size = some q) :
    ∃ r, copy_font defaultClsLanguageId defaultClsName src dst = Except.ok r ∧
      r.language_id = FVal.lang MSO_LANGUAGE_ID_ENGLISH_UK :=
  ⟨_, copy_font_eq defaultClsLanguageId defaultClsName src dst q hq, rfl⟩

/-- Witness for C9 (amended): the source speaks GERMAN, the destination
GERMAN too, yet the destination ends with ENGLISH_UK. -/
theorem C9_witness :
    ∃ r, copy_font defaultClsLanguageId defaultClsName fontA fontNoSize = Except.ok r ∧
      r.language_id = FVal.lang MSO_LANGUAGE_ID_ENGLISH_UK :=
  C9_copy_font_writes_class_language fontA fontNoSize 18 (by decide)

end PptxTools
